import Mathlib

/-!
Shallow embedding of the AMMA backend's video-generation core
(`backend/app/services/llm.py`, `recovery_plan.py`, `video_generator.py`,
`storage.py`, `supabase.py` and `backend/app/routers/videos.py`) together
with theorems settling the frozen behavioural claims about it.

Machine arithmetic is `Nat` with explicit reduction `% 2 ^ 32` where the
Python code relies on 32-bit word wrap-around (inside the hash functions);
strings are Lean `String`s; fallible Python code is `Except`; external
collaborators (HTTP providers, the database, the filesystem clock) enter as
explicit oracle parameters.
-/

set_option maxRecDepth 8000
set_option linter.unusedVariables false

namespace AMMA

/-! ## 32-bit word helpers (Nat with explicit `% 2 ^ 32`) -/

def w32 : Nat := 2 ^ 32

def add32 (a b : Nat) : Nat := (a + b) % w32

def rotr32 (x n : Nat) : Nat := ((x <<< (32 - n)) ||| (x >>> n)) % w32

def rotl32 (x n : Nat) : Nat := ((x >>> (32 - n)) ||| (x <<< n)) % w32

def not32 (x : Nat) : Nat := x ^^^ (w32 - 1)

/-! ## UTF-8 encoding of strings, as Python `str.encode("utf-8")` -/

def utf8EncodeChar (c : Char) : List Nat :=
  let n := c.toNat
  if n < 0x80 then [n]
  else if n < 0x800 then
    [0xC0 ||| (n >>> 6), 0x80 ||| (n &&& 0x3F)]
  else if n < 0x10000 then
    [0xE0 ||| (n >>> 12), 0x80 ||| ((n >>> 6) &&& 0x3F), 0x80 ||| (n &&& 0x3F)]
  else
    [0xF0 ||| (n >>> 18), 0x80 ||| ((n >>> 12) &&& 0x3F),
     0x80 ||| ((n >>> 6) &&& 0x3F), 0x80 ||| (n &&& 0x3F)]

def strToBytes (s : String) : List Nat :=
  s.data.flatMap utf8EncodeChar

/-! ## Hex rendering (`hexdigest`) -/

def hexDigitChar (n : Nat) : Char :=
  if n < 10 then Char.ofNat (48 + n) else Char.ofNat (87 + n)

def byteToHex (b : Nat) : List Char :=
  [hexDigitChar (b / 16), hexDigitChar (b % 16)]

def bytesToHex (bs : List Nat) : String :=
  ⟨bs.flatMap byteToHex⟩

/-! ## SHA-256 (`hashlib.sha256`), over byte lists -/

def sha256K : List Nat :=
  [0x428A2F98, 0x71374491, 0xB5C0FBCF, 0xE9B5DBA5, 0x3956C25B, 0x59F111F1,
   0x923F82A4, 0xAB1C5ED5, 0xD807AA98, 0x12835B01, 0x243185BE, 0x550C7DC3,
   0x72BE5D74, 0x80DEB1FE, 0x9BDC06A7, 0xC19BF174, 0xE49B69C1, 0xEFBE4786,
   0x0FC19DC6, 0x240CA1CC, 0x2DE92C6F, 0x4A7484AA, 0x5CB0A9DC, 0x76F988DA,
   0x983E5152, 0xA831C66D, 0xB00327C8, 0xBF597FC7, 0xC6E00BF3, 0xD5A79147,
   0x06CA6351, 0x14292967, 0x27B70A85, 0x2E1B2138, 0x4D2C6DFC, 0x53380D13,
   0x650A7354, 0x766A0ABB, 0x81C2C92E, 0x92722C85, 0xA2BFE8A1, 0xA81A664B,
   0xC24B8B70, 0xC76C51A3, 0xD192E819, 0xD6990624, 0xF40E3585, 0x106AA070,
   0x19A4C116, 0x1E376C08, 0x2748774C, 0x34B0BCB5, 0x391C0CB3, 0x4ED8AA4A,
   0x5B9CCA4F, 0x682E6FF3, 0x748F82EE, 0x78A5636F, 0x84C87814, 0x8CC70208,
   0x90BEFFFA, 0xA4506CEB, 0xBEF9A3F7, 0xC67178F2]

structure Sha256State where
  a : Nat
  b : Nat
  c : Nat
  d : Nat
  e : Nat
  f : Nat
  g : Nat
  h : Nat

def sha256IV : Sha256State :=
  ⟨0x6A09E667, 0xBB67AE85, 0x3C6EF372, 0xA54FF53A,
   0x510E527F, 0x9B05688C, 0x1F83D9AB, 0x5BE0CD19⟩

/-- Big-endian split of `v` into `n` bytes (most significant first). -/
def natToBytesBE (n v : Nat) : List Nat :=
  (List.range n).map (fun i => (v >>> (8 * (n - 1 - i))) &&& 0xFF)

/-- Merkle–Damgård padding: `0x80`, zeros to 56 mod 64, 8-byte big-endian bit length. -/
def sha256Pad (msg : List Nat) : List Nat :=
  let len := msg.length
  let zeros := (119 - len % 64) % 64
  msg ++ [0x80] ++ List.replicate zeros 0 ++ natToBytesBE 8 (len * 8)

/-- Group bytes into big-endian 32-bit words (input length a multiple of 4). -/
def bytesToWordsBE : List Nat → List Nat
  | b0 :: b1 :: b2 :: b3 :: rest =>
      (((b0 <<< 24) ||| ((b1 <<< 16) ||| ((b2 <<< 8) ||| b3))) % w32) :: bytesToWordsBE rest
  | _ => []

/-- Split a byte list into 64-byte blocks (fuel-driven structural recursion;
the fuel `l.length` always suffices since each step consumes 64 bytes). -/
def chunks64Aux : Nat → List Nat → List (List Nat)
  | _, [] => []
  | 0, _ :: _ => []
  | fuel + 1, a :: rest => ((a :: rest).take 64) :: chunks64Aux fuel ((a :: rest).drop 64)

def chunks64 (l : List Nat) : List (List Nat) := chunks64Aux l.length l

/-- Extend the 16 schedule words to 64. -/
def sha256Extend (w : List Nat) : List Nat :=
  (List.range 48).foldl
    (fun w _ =>
      let i := w.length
      let w15 := w.getD (i - 15) 0
      let w2 := w.getD (i - 2) 0
      let s0 := (rotr32 w15 7) ^^^ (rotr32 w15 18) ^^^ (w15 >>> 3)
      let s1 := (rotr32 w2 17) ^^^ (rotr32 w2 19) ^^^ (w2 >>> 10)
      w ++ [add32 (add32 (w.getD (i - 16) 0) s0) (add32 (w.getD (i - 7) 0) s1)])
    w

def sha256Round (st : Sha256State) (kw : Nat × Nat) : Sha256State :=
  let s1 := (rotr32 st.e 6) ^^^ (rotr32 st.e 11) ^^^ (rotr32 st.e 25)
  let ch := (st.e &&& st.f) ^^^ ((not32 st.e) &&& st.g)
  let t1 := add32 (add32 st.h s1) (add32 ch (add32 kw.1 kw.2))
  let s0 := (rotr32 st.a 2) ^^^ (rotr32 st.a 13) ^^^ (rotr32 st.a 22)
  let maj := (st.a &&& st.b) ^^^ (st.a &&& st.c) ^^^ (st.b &&& st.c)
  let t2 := add32 s0 maj
  ⟨add32 t1 t2, st.a, st.b, st.c, add32 st.d t1, st.e, st.f, st.g⟩

def sha256Block (st : Sha256State) (block : List Nat) : Sha256State :=
  let w := sha256Extend (bytesToWordsBE block)
  let r := (sha256K.zip w).foldl sha256Round st
  ⟨add32 st.a r.a, add32 st.b r.b, add32 st.c r.c, add32 st.d r.d,
   add32 st.e r.e, add32 st.f r.f, add32 st.g r.g, add32 st.h r.h⟩

def sha256Bytes (msg : List Nat) : List Nat :=
  let st := (chunks64 (sha256Pad msg)).foldl sha256Block sha256IV
  natToBytesBE 4 st.a ++ natToBytesBE 4 st.b ++ natToBytesBE 4 st.c ++
  natToBytesBE 4 st.d ++ natToBytesBE 4 st.e ++ natToBytesBE 4 st.f ++
  natToBytesBE 4 st.g ++ natToBytesBE 4 st.h

/-- Model of `hashlib.sha256(bytes).hexdigest()`. -/
def sha256Hex (msg : List Nat) : String :=
  bytesToHex (sha256Bytes msg)

/-! ## MD5 (`hashlib.md5`), over byte lists -/

def md5K : List Nat :=
  [0xD76AA478, 0xE8C7B756, 0x242070DB, 0xC1BDCEEE, 0xF57C0FAF, 0x4787C62A,
   0xA8304613, 0xFD469501, 0x698098D8, 0x8B44F7AF, 0xFFFF5BB1, 0x895CD7BE,
   0x6B901122, 0xFD987193, 0xA679438E, 0x49B40821, 0xF61E2562, 0xC040B340,
   0x265E5A51, 0xE9B6C7AA, 0xD62F105D, 0x02441453, 0xD8A1E681, 0xE7D3FBC8,
   0x21E1CDE6, 0xC33707D6, 0xF4D50D87, 0x455A14ED, 0xA9E3E905, 0xFCEFA3F8,
   0x676F02D9, 0x8D2A4C8A, 0xFFFA3942, 0x8771F681, 0x6D9D6122, 0xFDE5380C,
   0xA4BEEA44, 0x4BDECFA9, 0xF6BB4B60, 0xBEBFBC70, 0x289B7EC6, 0xEAA127FA,
   0xD4EF3085, 0x04881D05, 0xD9D4D039, 0xE6DB99E5, 0x1FA27CF8, 0xC4AC5665,
   0xF4292244, 0x432AFF97, 0xAB9423A7, 0xFC93A039, 0x655B59C3, 0x8F0CCC92,
   0xFFEFF47D, 0x85845DD1, 0x6FA87E4F, 0xFE2CE6E0, 0xA3014314, 0x4E0811A1,
   0xF7537E82, 0xBD3AF235, 0x2AD7D2BB, 0xEB86D391]

def md5S : List Nat :=
  [7, 12, 17, 22, 7, 12, 17, 22, 7, 12, 17, 22, 7, 12, 17, 22,
   5, 9, 14, 20, 5, 9, 14, 20, 5, 9, 14, 20, 5, 9, 14, 20,
   4, 11, 16, 23, 4, 11, 16, 23, 4, 11, 16, 23, 4, 11, 16, 23,
   6, 10, 15, 21, 6, 10, 15, 21, 6, 10, 15, 21, 6, 10, 15, 21]

/-- Little-endian split of `v` into `n` bytes (least significant first). -/
def natToBytesLE (n v : Nat) : List Nat :=
  (List.range n).map (fun i => (v >>> (8 * i)) &&& 0xFF)

/-- MD5 padding: `0x80`, zeros to 56 mod 64, 8-byte little-endian bit length. -/
def md5Pad (msg : List Nat) : List Nat :=
  let len := msg.length
  let zeros := (119 - len % 64) % 64
  msg ++ [0x80] ++ List.replicate zeros 0 ++ natToBytesLE 8 (len * 8)

/-- Group bytes into little-endian 32-bit words (input length a multiple of 4). -/
def bytesToWordsLE : List Nat → List Nat
  | b0 :: b1 :: b2 :: b3 :: rest =>
      (((b3 <<< 24) ||| ((b2 <<< 16) ||| ((b1 <<< 8) ||| b0))) % w32) :: bytesToWordsLE rest
  | _ => []

structure Md5State where
  a : Nat
  b : Nat
  c : Nat
  d : Nat

def md5IV : Md5State := ⟨0x67452301, 0xEFCDAB89, 0x98BADCFE, 0x10325476⟩

def md5Round (m : List Nat) (st : Md5State) (i : Nat) : Md5State :=
  let fg : Nat × Nat :=
    if i < 16 then ((st.b &&& st.c) ||| ((not32 st.b) &&& st.d), i)
    else if i < 32 then ((st.d &&& st.b) ||| ((not32 st.d) &&& st.c), (5 * i + 1) % 16)
    else if i < 48 then (st.b ^^^ st.c ^^^ st.d, (3 * i + 5) % 16)
    else (st.c ^^^ (st.b ||| not32 st.d), (7 * i) % 16)
  let f := add32 (add32 fg.1 st.a) (add32 (md5K.getD i 0) (m.getD fg.2 0))
  ⟨st.d, add32 st.b (rotl32 f (md5S.getD i 0)), st.b, st.c⟩

def md5Block (st : Md5State) (block : List Nat) : Md5State :=
  let m := bytesToWordsLE block
  let r := (List.range 64).foldl (md5Round m) st
  ⟨add32 st.a r.a, add32 st.b r.b, add32 st.c r.c, add32 st.d r.d⟩

def md5Bytes (msg : List Nat) : List Nat :=
  let st := (chunks64 (md5Pad msg)).foldl md5Block md5IV
  natToBytesLE 4 st.a ++ natToBytesLE 4 st.b ++ natToBytesLE 4 st.c ++
  natToBytesLE 4 st.d

/-- Model of `hashlib.md5(bytes).hexdigest()`. -/
def md5Hex (msg : List Nat) : String :=
  bytesToHex (md5Bytes msg)

/-! ## Python string helpers -/

/-- Python truthiness fallback `s or fallback` on strings: the empty string is
falsy, everything else is itself. -/
def pyOr (s fallback : String) : String := if s = "" then fallback else s

/-- Model of Python `str.lower()` (ASCII case folding, which covers every string the
backend feeds it). -/
def pyLower (s : String) : String := ⟨s.data.map Char.toLower⟩

/-- The ASCII whitespace Python `str.strip()` removes. -/
def isPySpace (c : Char) : Bool :=
  c = ' ' || c = '\t' || c = '\n' || c = '\r' || c = '\x0b' || c = '\x0c'

/-- Python `str.strip()` (ASCII whitespace at both ends). -/
def pyStrip (s : String) : String :=
  ⟨((s.data.dropWhile isPySpace).reverse.dropWhile isPySpace).reverse⟩

/-! ## `LLMService.compute_case_key` (`backend/app/services/llm.py`) -/

/-- The `parts` list: each field normalized exactly as in the source
(`diagnosis_code or "unknown_diagnosis"`, …,
`(recovery_milestone or "").strip() or "no_milestone"`,
`(doctor_specialty or "").strip() or "general"`). -/
def caseKeyParts (diagnosis_code procedure_code : String)
    (recovery_milestone doctor_specialty : Option String) : List String :=
  [pyOr diagnosis_code "unknown_diagnosis",
   pyOr procedure_code "unknown_procedure",
   pyOr (pyStrip (recovery_milestone.getD "")) "no_milestone",
   pyOr (pyStrip (doctor_specialty.getD "")) "general"]

/-- The string `summary = ":".join(parts).lower()`, written with the join of the literal
four-element list spelled out. -/
def caseSummary (diagnosis_code procedure_code : String)
    (recovery_milestone doctor_specialty : Option String) : String :=
  pyLower
    (pyOr diagnosis_code "unknown_diagnosis" ++ ":" ++
     pyOr procedure_code "unknown_procedure" ++ ":" ++
     pyOr (pyStrip (recovery_milestone.getD "")) "no_milestone" ++ ":" ++
     pyOr (pyStrip (doctor_specialty.getD "")) "general")

/-- Model of `LLMService.compute_case_key`: SHA-256 hex digest of the UTF-8 bytes of the
canonical summary string. -/
def compute_case_key (diagnosis_code procedure_code : String)
    (recovery_milestone doctor_specialty : Option String) : String :=
  sha256Hex (strToBytes
    (caseSummary diagnosis_code procedure_code recovery_milestone doctor_specialty))

/-! ## Recovery plans (`backend/app/services/recovery_plan.py`) -/

structure RecoveryDayPlan where
  day : Int
  title : String
  description : String
  focus : String
  checklist : List String
deriving DecidableEq, Repr

/-- The table `PLAN_DEFINITIONS`, in the dict's insertion order (keys 1, 3, 5, 7, 10,
14, 17, 21, 24, 30). -/
def PLAN_DEFINITIONS : List (Int × RecoveryDayPlan) :=
  [(1, ⟨1, "Initial Assessment & Care",
        "Reinforce immediate post-visit instructions and symptom expectations.",
        "Rest, hydration, pain baseline capture, medication reminders.",
        ["Review wound/incision care instructions",
         "Confirm medication schedule and first doses",
         "Explain when to escalate to physician"]⟩),
   (3, ⟨3, "Early Progress Check",
        "Highlight early improvements or concerns to watch for.",
        "Inflammation control, breathing exercises, adherence to rest schedule.",
        ["Discuss pain trend vs day 1",
         "Remind about breathing/circulatory exercises",
         "Encourage symptom journaling"]⟩),
   (5, ⟨5, "Medication & Wound Review",
        "Revisit medication technique and wound expectations.",
        "Medication adherence, wound observation, nutrition.",
        ["Demonstrate correct medication timing",
         "Describe expected wound appearance",
         "Promote high-protein meals and hydration"]⟩),
   (7, ⟨7, "First Week Milestone",
        "Celebrate progress and outline gentle mobility goals.",
        "Light mobility, swelling reduction, mental health check-in.",
        ["Explain safe mobility exercises",
         "Call out red-flag symptoms",
         "Share coping strategies for anxiety or fatigue"]⟩),
   (10, ⟨10, "Pain Management & PT Intro",
        "Transition patient towards guided therapy routines.",
        "Adjust pain regimen, introduce PT warmups, reinforce follow-up date.",
        ["Explain difference between soreness vs sharp pain",
         "Demonstrate first PT warmup",
         "Confirm upcoming clinical visit"]⟩),
   (14, ⟨14, "Two-Week Checkpoint",
        "Assess mobility gains and encourage gradual independence.",
        "Activity pacing, sleep hygiene, continuing wound care.",
        ["Review mobility milestones completed",
         "Discuss sleep positioning",
         "Remind about scar management if applicable"]⟩),
   (17, ⟨17, "Mid-Recovery Reset",
        "Address plateaus and reinforce motivation.",
        "Symptom tracking, nutrition upgrades, mental resilience.",
        ["Identify any healing plateaus",
         "Explain adjustments to meal plan",
         "Offer motivation techniques or support resources"]⟩),
   (21, ⟨21, "Three-Week Progress",
        "Encourage confident movement and adherence.",
        "Advanced mobility cues, preventing overexertion.",
        ["Demonstrate progression for key exercises",
         "Warn against pushing through sharp pain",
         "Remind about hydration and electrolyte balance"]⟩),
   (24, ⟨24, "Advanced Exercises",
        "Coach patient through more demanding routines.",
        "Strength building, stamina, monitoring delayed soreness.",
        ["Break down advanced exercise form",
         "Give pacing guidance",
         "Discuss managing delayed onset soreness"]⟩),
   (30, ⟨30, "Graduation & Long-Term Plan",
        "Outline long-term maintenance and warning signs.",
        "Sustaining habits, scheduling follow-ups, transitioning to lifestyle care.",
        ["Summarize achievements",
         "Set expectations for next clinician visit",
         "Share long-term prevention tips"]⟩)]

/-- Python `sorted` on integer keys, as a stable insertion sort. -/
def insertSorted (x : Int) : List Int → List Int
  | [] => [x]
  | y :: ys => if x ≤ y then x :: y :: ys else y :: insertSorted x ys

def sortInts : List Int → List Int
  | [] => []
  | x :: xs => insertSorted x (sortInts xs)

/-- Dict lookup `PLAN_DEFINITIONS[d]` (first matching key). -/
def planLookup (d : Int) : Option RecoveryDayPlan :=
  (PLAN_DEFINITIONS.find? (fun kv => kv.1 = d)).map (·.2)

/-- Model of `get_plan_for_day`: exact-match lookup (`asdict` is the identity in the
model, the dict has the same fields as the dataclass). -/
def get_plan_for_day (day : Int) : Option RecoveryDayPlan :=
  planLookup day

/-- Model of `get_prior_plans`: the plans of the defined days strictly below `day`,
in ascending key order. -/
def get_prior_plans (day : Int) : List RecoveryDayPlan :=
  let prior_days :=
    (sortInts (PLAN_DEFINITIONS.map Prod.fst)).filter (fun d => d < day)
  prior_days.filterMap planLookup

/-! ## `LLMService.build_prompt` (`backend/app/services/llm.py`) -/

/-- A `users` row as the prompt builder reads it (`dict.get` with defaults,
so every field is optional). -/
structure PersonRec where
  first_name : Option String := none
  last_name : Option String := none
  specialty : Option String := none
deriving Repr, DecidableEq

/-- The payload assembled by `_context_to_prompt_payload` in the router and
consumed by `build_prompt`. -/
structure PromptContext where
  patient : PersonRec
  doctor : PersonRec
  diagnoses : List String := []
  medications : List String := []
  notes : Option String := none
  recovery_plan : Option RecoveryDayPlan := none
  prior_recovery_context : List RecoveryDayPlan := []
  recovery_milestone : Option String := none
deriving Repr

/-- The triple-quoted storyboard template, byte for byte (note the trailing
space after "patients. " and the typographic quotes, as in the source). -/
def storyboard : String :=
  "\nYou are a medical video script writer crafting a 45-second animated explainer for patients. \nOutput JSON with keys: intro, brain_intro, what_is, benign_vs_malignant, symptoms, diagnosis, closing, narrator_tone, visual_style.\nEach of intro through closing must be an object like \x7b\"narration\": \"...\", \"visuals\": \"...\"\x7d.\nFollow this scene plan:\n1. Opening (0-5s): friendly cartoon hospital, narrator says “Today, let’s understand what a brain tumour is.”\n2. Brain introduction (5-10s): glowing cartoon brain highlighting functions.\n3. What is a brain tumour? (10-20s): soft visualization of cells growing.\n4. Benign vs Malignant (20-27s): split screen characters, calm vs assertive.\n5. Symptoms (27-35s): illustrate headaches, blurry vision, speech difficulty, balance issues.\n6. Diagnosis (35-42s): MRI/CT scan animation with doctor explaining gently.\n7. Closing (42-45s): hopeful hospital scene, emphasize early diagnosis & care plan.\nTone: compassionate, plain language, reassuring.\nVisual style: gentle colors, smooth motion, friendly cartoon aesthetic, no frightening imagery.\nNever mention JSON or technical instructions inside narration.\n"

/-- The conditional "Today's recovery milestone" block. -/
def recoveryBlock (rp : RecoveryDayPlan) (recovery_milestone : Option String) : String :=
  "\n\nToday's recovery milestone (Day " ++ toString rp.day ++ "): " ++ rp.title ++ ".\n" ++
  "Focus: " ++ rp.focus ++ "\n" ++
  "Checklist items: " ++ String.intercalate ", " rp.checklist ++ "\n" ++
  "Milestone label: " ++ pyOr (recovery_milestone.getD "") rp.title ++ "\n" ++
  "Ensure the script references today's objectives explicitly."

/-- The conditional "Previous recovery context" block. -/
def priorBlock (items : List RecoveryDayPlan) : String :=
  "\n\nPrevious recovery context that must be referenced for continuity:\n" ++
  String.intercalate "; "
    (items.map (fun item => "Day " ++ toString item.day ++ ": " ++ item.title)) ++
  "\n" ++
  "Acknowledge prior progress and set expectations for the next check-in."

/-- The value `notes = context.get("notes") or "No supplemental notes provided."`. -/
def notesText (context : PromptContext) : String :=
  pyOr (context.notes.getD "") "No supplemental notes provided."

/-- The value `patient_name`. -/
def patientName (context : PromptContext) : String :=
  pyStrip (pyStrip (context.patient.first_name.getD "") ++ " " ++
           pyStrip (context.patient.last_name.getD ""))

/-- The value `doctor_name`. -/
def doctorName (context : PromptContext) : String :=
  pyStrip ("Dr. " ++ pyOr (pyStrip (context.doctor.last_name.getD ""))
                          (pyStrip (context.doctor.first_name.getD "")))

/-- The value `diagnoses_text = ", ".join(diagnoses) or "Not specified"`. -/
def diagnosesText (context : PromptContext) : String :=
  pyOr (String.intercalate ", " context.diagnoses) "Not specified"

/-- The value `medications_text = ", ".join(medications) or "No active medications listed"`. -/
def medicationsText (context : PromptContext) : String :=
  pyOr (String.intercalate ", " context.medications) "No active medications listed"

/-- The unconditional part of the prompt (the first f-string). -/
def promptCore (context : PromptContext) : String :=
  storyboard ++ "\n" ++
  "Patient: " ++ pyOr (patientName context) "Patient" ++ "\n" ++
  "Doctor: " ++ pyOr (doctorName context) "Doctor" ++ "\n" ++
  "Diagnoses: " ++ diagnosesText context ++ "\n" ++
  "Medications: " ++ medicationsText context ++ "\n" ++
  "Additional Notes:\n" ++ notesText context ++ "\n"

/-- Model of `LLMService.build_prompt`. -/
def build_prompt (context : PromptContext) : String :=
  let prompt := promptCore context
  let prompt :=
    match context.recovery_plan with
    | some rp => prompt ++ recoveryBlock rp context.recovery_milestone
    | none => prompt
  match context.prior_recovery_context with
  | [] => prompt
  | items@(_ :: _) => prompt ++ priorBlock items

/-! ## Python values and dicts (for script payloads) -/

/-- A Python value as it appears in parsed JSON script payloads. -/
inductive PyVal where
  | str (s : String)
  | int (n : Int)
  | bool (b : Bool)
  | null
  | arr (items : List PyVal)
  | obj (fields : List (String × PyVal))
deriving Repr

/-- Lookup `dict.get(k)` / `d[k]` for insertion-ordered dicts with unique keys. -/
def pyGet (d : List (String × PyVal)) (k : String) : Option PyVal :=
  (d.find? (fun kv => kv.1 = k)).map (·.2)

/-- Membership `k in d`. -/
def pyHas (d : List (String × PyVal)) (k : String) : Bool :=
  (pyGet d k).isSome

/-- Update `d.setdefault(k, v)`: unchanged when the key is present, else the pair is
appended (Python dicts append new keys at the end). -/
def pySetdefault (d : List (String × PyVal)) (k : String) (v : PyVal) :
    List (String × PyVal) :=
  if pyHas d k then d else d ++ [(k, v)]

mutual

/-- Python `repr`, to the extent the prompt builder can observe it (string
escaping inside reprs is not modelled; no theorem below depends on the repr
of a non-string value). -/
def pyRepr : PyVal → String
  | .str s => "'" ++ s ++ "'"
  | .int n => toString n
  | .bool b => if b then "True" else "False"
  | .null => "None"
  | .arr items => "[" ++ pyReprList items ++ "]"
  | .obj fields => "\x7b" ++ pyReprFields fields ++ "\x7d"

def pyReprList : List PyVal → String
  | [] => ""
  | [v] => pyRepr v
  | v :: w :: rest => pyRepr v ++ ", " ++ pyReprList (w :: rest)

def pyReprFields : List (String × PyVal) → String
  | [] => ""
  | [(k, v)] => "'" ++ k ++ "': " ++ pyRepr v
  | (k, v) :: w :: rest => "'" ++ k ++ "': " ++ pyRepr v ++ ", " ++ pyReprFields (w :: rest)

end

/-- Python `str()` as used inside f-strings: a string is itself, anything
else renders as its repr. -/
def pyToStr : PyVal → String
  | .str s => s
  | v => pyRepr v

def isStrVal : PyVal → Bool
  | .str _ => true
  | _ => false

/-! ## `LLMService.request_script` (`backend/app/services/llm.py`) -/

inductive ScriptErr where
  | providerError (msg : String)
  | indexError
deriving Repr, DecidableEq

/-- What `chat.completions.create` produced: a raised exception, or a
response whose `choices` each carry an optional `message.content`. -/
inductive ProviderResult where
  | raised (msg : String)
  | ok (choices : List (Option String))
deriving Repr

/-- Model of `LLMService.request_script`, parameterised by `json.loads`
(`loads text = none` models `JSONDecodeError`). -/
def request_script (loads : String → Option PyVal) :
    ProviderResult → Except ScriptErr (List (String × PyVal))
  | .raised m => .error (.providerError m)
  | .ok [] => .error .indexError
  | .ok (c :: _) =>
    let text := pyStrip (c.getD "")
    match loads text with
    | some (.obj fields) => .ok (pySetdefault fields "content" (.str text))
    | _ => .ok [("content", .str text)]

/-! ## `VideoGeneratorService` (`backend/app/services/video_generator.py`) -/

inductive PyErr where
  | typeError
  | valueError (msg : String)
  | notImplementedError (msg : String)
  | runtimeError (msg : String)
  | timeoutError (msg : String)
  | otherError
deriving Repr, DecidableEq

/-- Python `sep.join(values)`: `TypeError` unless every element is a `str`. -/
def pyJoinVals (sep : String) (vals : List PyVal) : Except PyErr String :=
  if vals.all isStrVal then .ok (String.intercalate sep (vals.map pyToStr))
  else .error .typeError

/-- Model of `VideoGeneratorService._build_video_prompt`. -/
def buildVideoPrompt (script_payload : List (String × PyVal)) : Except PyErr String := do
  let scene_desc := ["intro", "overview", "treatment"].filterMap (pyGet script_payload)
  let parts1 : List PyVal ←
    if scene_desc.isEmpty then
      match pyGet script_payload "content" with
      | some c => pure [c]
      | none => pure ([] : List PyVal)
    else do
      let joined ← pyJoinVals " " scene_desc
      pure [PyVal.str joined]
  let parts2 := parts1 ++
    [PyVal.str "\n\nCinematography:",
     PyVal.str "Camera shot: eye-level shot, warm professional lighting",
     PyVal.str "Mood: clear, compassionate, and reassuring",
     PyVal.str "\n\nActions:"]
  let parts3 := parts2 ++
    (["intro", "overview", "treatment", "reminders"].filterMap
      (fun k => (pyGet script_payload k).map (fun v => PyVal.str ("- " ++ pyToStr v))))
  let parts4 := parts3 ++
    [PyVal.str "\n\nProfessional medical animation style, clear and compassionate visuals, modern healthcare setting."]
  pyJoinVals "\n" parts4

/-- The result dict of a video-generation call. Real-provider results carry no
`mock` key, which reads as `False` (`payload.get("mock")` is falsy). -/
structure VideoResult where
  id : Option String
  status : String
  video_url : Option String
  video_file_id : Option String := none
  prompt : Option String := none
  mock : Bool := false
deriving Repr, DecidableEq

/-- The deterministic placeholder URL of the mock path: MD5 of the prompt,
truncated to 12 hex characters. -/
def mockUrl (video_prompt : String) : String :=
  "https://example.com/videos/mock_" ++ (md5Hex (strToBytes video_prompt)).take 12 ++ ".mp4"

/-- Model of `VideoGeneratorService._create_mock_video` (the sleep is timing, not
behaviour). `metadata` is accepted and ignored, as in the source. -/
def createMockVideo (script_payload metadata : List (String × PyVal)) :
    Except PyErr VideoResult := do
  let video_prompt ← buildVideoPrompt script_payload
  let prompt_hash := (md5Hex (strToBytes video_prompt)).take 12
  pure
    { id := some ("mock_video_" ++ prompt_hash)
      status := "completed"
      video_url := some ("https://example.com/videos/mock_" ++ prompt_hash ++ ".mp4")
      video_file_id := some ("file_" ++ prompt_hash)
      prompt := some video_prompt
      mock := true }

/-- One poll response from `GET /v1/videos/{job_id}` (the direct-HTTP branch;
the SDK branch runs the identical decision logic): either the request itself
raised, or a JSON body with optional `id`, `status` and `error.message`. -/
inductive PollResp where
  | response (respId : Option String) (status : Option String) (errorMessage : Option String)
  | requestError
deriving Repr

/-- The loop body of `_poll_for_video`, structurally recursive on the number
of attempts left (`fuel = max_attempts - attempt`, so the Python test
`attempt == max_attempts - 1` is `fuel = 0` after one step is consumed). -/
def pollFuel (job_id : String) (trace : Nat → PollResp)
    (download : String → Except String String) :
    Nat → Nat → Except PyErr VideoResult
  | _, 0 => .error (.timeoutError ("Video generation timed out for job " ++ job_id))
  | attempt, fuel + 1 =>
    match trace attempt with
    | .requestError =>
        if fuel = 0 then .error .otherError
        else pollFuel job_id trace download (attempt + 1) fuel
    | .response respId status errMsg =>
        if status = some "completed" then
          match download job_id with
          | .ok path => .ok { id := respId, status := "completed", video_url := some path }
          | .error e => .error (.runtimeError ("Failed to download video content: " ++ e))
        else if status = some "failed" then
          .error (.runtimeError ("Video generation failed: " ++ errMsg.getD "Unknown error"))
        else pollFuel job_id trace download (attempt + 1) fuel

/-- Model of `VideoGeneratorService._poll_for_video` with its default ceiling of 120
attempts. `trace i` is the provider's behaviour at poll attempt `i`;
`download` is `_download_video_content` (its result path, or the error text
wrapped into the `RuntimeError` it raises). -/
def poll_for_video (job_id : String) (trace : Nat → PollResp)
    (download : String → Except String String) (max_attempts : Nat := 120) :
    Except PyErr VideoResult :=
  pollFuel job_id trace download 0 max_attempts

/-- What the submission POST to `/v1/videos` came back with, after the
source's status-code dispatch: each constructor is one arm of
`_create_sora_video` (messages already formatted as there). A generic HTTP
failure falls to the SDK branch, which in this environment lacks
`videos.create` and raises `NotImplementedError`. -/
inductive SubmitOutcome where
  | authError (msg : String)
  | forbidden (msg : String)
  | badRequest (msg : String)
  | accepted (job_id : String) (status : String)
  | acceptedNoId (status : String) (url : Option String)
  | httpFailure (msg : String)
deriving Repr

/-- Model of `VideoGeneratorService._create_sora_video`. -/
def createSoraVideo (submit : SubmitOutcome) (trace : Nat → PollResp)
    (download : String → Except String String) : Except PyErr VideoResult :=
  match submit with
  | .authError m =>
      .error (.valueError
        ("OpenAI API authentication failed: " ++ m ++ ". Please check your API key."))
  | .forbidden m =>
      .error (.notImplementedError
        ("Sora 2 API access not available: " ++ m ++
         ". Your account may need to be whitelisted for Sora 2 API access."))
  | .badRequest m => .error (.notImplementedError m)
  | .accepted job_id status =>
      if status = "completed" then
        match download job_id with
        | .ok path => .ok { id := some job_id, status := "completed", video_url := some path }
        | .error e => .error (.runtimeError ("Failed to download video content: " ++ e))
      else poll_for_video job_id trace download 120
  | .acceptedNoId status url => .ok { id := some "unknown", status := status, video_url := url }
  | .httpFailure m => .error (.notImplementedError ("Sora 2 API call failed: " ++ m))

/-- Model of `VideoGeneratorService.create_video`: the prompt is built OUTSIDE the
try/except; only the provider call itself is guarded by the mock fallback.
`sora` abstracts `_create_sora_video` as a function of the built prompt. -/
def create_video (sora : String → Except PyErr VideoResult)
    (script_payload metadata : List (String × PyVal)) : Except PyErr VideoResult := do
  let video_prompt ← buildVideoPrompt script_payload
  match sora video_prompt with
  | .ok r => pure r
  | .error _ => createMockVideo script_payload metadata

/-! ## `StorageService.upload_from_url` (`backend/app/services/storage.py`) -/

/-- Observable outcome of `upload_from_url`: the returned URL, the local
files written, the log lines printed, and the `use_supabase` flag after the
call. -/
structure StorageOutcome where
  url : String
  fsWrites : List (String × List Nat)
  logs : List String
  useSupabaseAfter : Bool
deriving Repr, DecidableEq

/-- Model of `StorageService.upload_from_url`. `cloudAttempt` is the
upload-then-get-public-url sequence against Supabase (its public URL, or the
exception text it raised); `download` is the initial `httpx` GET of the
source video; `uuid_hex` is the `uuid4().hex` drawn for the file name. -/
def upload_from_url (storage_dir : String) (use_supabase : Bool)
    (cloudAttempt : Except String String)
    (download : Except String (List Nat))
    (case_key uuid_hex : String) : Except String StorageOutcome :=
  let filename := case_key ++ "-" ++ uuid_hex ++ ".mp4"
  match download with
  | .error e => .error e
  | .ok video_data =>
    if use_supabase then
      match cloudAttempt with
      | .ok public_url =>
          .ok ⟨public_url, [],
               ["[INFO] Video uploaded to Supabase Storage: " ++ public_url], true⟩
      | .error e =>
          .ok ⟨"/storage/videos/" ++ filename,
               [(storage_dir ++ "/videos/" ++ filename, video_data)],
               ["[ERROR] Supabase upload failed: " ++ e ++ ", falling back to local storage"],
               false⟩
    else
      .ok ⟨"/storage/videos/" ++ filename,
           [(storage_dir ++ "/videos/" ++ filename, video_data)], [], false⟩

/-! ## Orchestrator (`backend/app/routers/videos.py::generate_video`) and the
reuse lookup (`backend/app/services/supabase.py::find_reusable_video`) -/

structure GenRequest where
  doctor_email : String
  patient_email : String
  diagnosis_code : String
  procedure_code : String
  recovery_day : Option Int := none
  recovery_milestone : Option String := none
  force_regenerate : Bool := false
deriving Repr

/-- A `patient_files` row. -/
structure MetaRecord where
  id : Option Int := none
  doctor_email : String := ""
  patient_email : String := ""
  file_type : String := ""
  file_url : String := ""
  file_name : Option String := none
  case_key : Option String := none
  created_at : Nat := 0
deriving Repr, DecidableEq

/-- The ordering `ORDER BY created_at DESC` as a stable insertion sort (descending). -/
def insertByRecency (r : MetaRecord) : List MetaRecord → List MetaRecord
  | [] => [r]
  | s :: rest =>
      if s.created_at < r.created_at then r :: s :: rest
      else s :: insertByRecency r rest

def sortByRecency : List MetaRecord → List MetaRecord
  | [] => []
  | r :: rest => insertByRecency r (sortByRecency rest)

/-- Model of `SupabaseService.find_reusable_video`: `None` immediately when the
feature flag is off, else the most recent `patient_files` row with
`file_type = "video"` and this `case_key` (`LIMIT 1`). -/
def find_reusable_video (reuse_case_enabled : Bool) (store : List MetaRecord)
    (ck : String) : Option MetaRecord :=
  if !reuse_case_enabled then none
  else
    (sortByRecency (store.filter
      (fun r => r.file_type = "video" && r.case_key == some ck))).head?

/-- The externally observable side effects of one `generate_video` call. -/
structure GenEffects where
  lookupPerformed : Bool
  providerCalls : Nat
  storageWrites : Nat
  savedMetadata : List MetaRecord
deriving Repr, DecidableEq

/-- Model of `VideoGenerationResponse`. -/
structure GenResponse where
  video_url : String
  case_key : String
  reused : Bool
  metadata_id : Option Int
deriving Repr, DecidableEq

/-- The orchestrator `generate_video`, from the point where the patient
context and script are in hand (fetching them happens before the slice the
claims are about). `videoOracle` stands for `video_service.create_video`,
`uploadOracle` for `storage_service.upload_from_url` applied to the provider
URL, `demoExists` for whether the demo placeholder file already exists on
the mock branch, and `insert_id`/`now` for the database-assigned row id and
timestamp. Returns the effects alongside the response or the raised
error. -/
def generate_video (req : GenRequest) (doctor_specialty : Option String)
    (reuse_case_enabled : Bool) (store : List MetaRecord)
    (videoOracle : Except String VideoResult)
    (uploadOracle : String → Except String String)
    (demoExists : Bool) (insert_id : Option Int) (now : Nat) :
    GenEffects × Except String GenResponse :=
  match (if req.force_regenerate then none
         else find_reusable_video reuse_case_enabled store
           (compute_case_key req.diagnosis_code req.procedure_code
             req.recovery_milestone doctor_specialty)) with
  | some reusable =>
      (⟨!req.force_regenerate, 0, 0, []⟩,
       .ok ⟨reusable.file_url,
            compute_case_key req.diagnosis_code req.procedure_code
              req.recovery_milestone doctor_specialty,
            true, reusable.id⟩)
  | none =>
    match videoOracle with
    | .error e => (⟨!req.force_regenerate, 1, 0, []⟩, .error e)
    | .ok payload =>
      if payload.video_url.getD "" = "" then
        (⟨!req.force_regenerate, 1, 0, []⟩,
         .error "Video provider did not return a video URL.")
      else
        match (if payload.mock then
                 Except.ok ("/storage/videos/demo_video.mp4",
                   if demoExists then 0 else 1)
               else
                 match uploadOracle (payload.video_url.getD "") with
                 | .ok u => .ok (u, 1)
                 | .error e => .error e : Except String (String × Nat)) with
        | .error e => (⟨!req.force_regenerate, 1, 0, []⟩, .error e)
        | .ok (public_url, w) =>
          (⟨!req.force_regenerate, 1, w,
            [⟨insert_id, req.doctor_email, req.patient_email, "video", public_url,
              some (compute_case_key req.diagnosis_code req.procedure_code
                req.recovery_milestone doctor_specialty ++ ".mp4"),
              some (compute_case_key req.diagnosis_code req.procedure_code
                req.recovery_milestone doctor_specialty), now⟩]⟩,
           .ok ⟨public_url,
                compute_case_key req.diagnosis_code req.procedure_code
                  req.recovery_milestone doctor_specialty,
                false, insert_id⟩)

/-! ## Predicates and concrete scenario instances used by the theorems -/

/-- Substring occurrence: `t` occurs inside `s`. -/
def containsStr (s t : String) : Prop := ∃ a b, s = a ++ t ++ b

/-- A poll response that is neither terminal nor a failed request: on such a
response the loop sleeps and continues. -/
def NonTerminalResp : PollResp → Prop
  | .response _ st _ => st ≠ some "completed" ∧ st ≠ some "failed"
  | .requestError => False

/-- Every value of a script payload is a JSON string (the shape for which
`" ".join`/`"\n".join` in the prompt builder cannot raise `TypeError`). -/
def AllStrPayload (script_payload : List (String × PyVal)) : Prop :=
  ∀ kv ∈ script_payload, isStrVal kv.2 = true

/-- A provider that answers every poll with a non-terminal `processing`. -/
def processingTrace : Nat → PollResp :=
  fun _ => PollResp.response none (some "processing") none

/-- A download oracle that always succeeds with a fixed temp path. -/
def okDownload : String → Except String String :=
  fun _ => .ok "/tmp/sora_video.mp4"

/-- A well-formed one-section script payload. -/
def helloPayload : List (String × PyVal) := [("intro", PyVal.str "Hello")]

/-- The video prompt `_build_video_prompt` derives from `helloPayload`. -/
def helloPrompt : String :=
  "Hello\n\n\nCinematography:\nCamera shot: eye-level shot, warm professional lighting\nMood: clear, compassionate, and reassuring\n\n\nActions:\n- Hello\n\n\nProfessional medical animation style, clear and compassionate visuals, modern healthcare setting."

/-- The sora path for a job that is accepted and then polls forever. -/
def hangingSora : String → Except PyErr VideoResult :=
  fun _ => createSoraVideo (.accepted "job-1" "queued") processingTrace okDownload

/-- A sora path that fails submission with an authentication error. -/
def authFailSora : String → Except PyErr VideoResult :=
  fun _ => .error (.valueError "OpenAI API authentication failed: bad key. Please check your API key.")

/-- A `json.loads` oracle that parses everything as a fixed one-key object. -/
def loadsObj : String → Option PyVal :=
  fun _ => some (PyVal.obj [("intro", PyVal.str "x")])

/-- A `json.loads` oracle that always raises `JSONDecodeError`. -/
def loadsFail : String → Option PyVal := fun _ => none

/-- The day-1 schedule entry, named for use at concrete inputs. -/
def dayOnePlan : RecoveryDayPlan :=
  ⟨1, "Initial Assessment & Care",
   "Reinforce immediate post-visit instructions and symptom expectations.",
   "Rest, hydration, pain baseline capture, medication reminders.",
   ["Review wound/incision care instructions",
    "Confirm medication schedule and first doses",
    "Explain when to escalate to physician"]⟩

/-- A context with empty diagnoses/medications and no notes. -/
def emptyCtx : PromptContext :=
  { patient := { first_name := some "Ada", last_name := some "Lovelace" },
    doctor := { last_name := some "Turing" } }

/-- A provider that polls `processing` once and then reports failure. -/
def failTrace : Nat → PollResp :=
  fun i =>
    if i = 0 then PollResp.response none (some "processing") none
    else PollResp.response none (some "failed") (some "boom")

/-- The case key of the concrete reuse scenario. -/
def ckC1 : String := compute_case_key "D-1" "P-1" none none

/-- A stored video row bearing `ckC1`. -/
def recC1 : MetaRecord :=
  { id := some 7, doctor_email := "doc@example.com", patient_email := "pat@example.com",
    file_type := "video", file_url := "/storage/videos/old.mp4",
    file_name := some "old.mp4", case_key := some ckC1, created_at := 5 }

/-- The concrete reuse request (`force_regenerate` defaults to `False`). -/
def reqC1 : GenRequest :=
  { doctor_email := "doc@example.com", patient_email := "pat@example.com",
    diagnosis_code := "D-1", procedure_code := "P-1" }

/-- A video oracle returning a real (non-mock) completed video. -/
def videoOracleC1 : Except String VideoResult :=
  .ok { id := some "job-9", status := "completed", video_url := some "https://provider/video9.mp4" }

/-- An upload oracle that stores the video locally. -/
def uploadOracleC1 : String → Except String String :=
  fun _ => .ok "/storage/videos/new.mp4"

end AMMA

namespace AMMA

/-! ## Theorems -/

/-- RFC 1321 test vector: the empty message. -/
theorem md5Hex_empty : md5Hex [] = "d41d8cd98f00b204e9800998ecf8427e" := by
  decide

/-- RFC 1321 test vector: `"abc"`. -/
theorem md5Hex_abc :
    md5Hex (strToBytes "abc") = "900150983cd24fb0d6963f7d28e17f72" := by
  decide

/-- FIPS 180-4 test vector: the empty message. -/
theorem sha256Hex_empty :
    sha256Hex [] = "e3b0c44298fc1c149afbf4c8996fb92427ae41e4649b934ca495991b7852b855" := by
  decide

/-- FIPS 180-4 test vector: `"abc"`. -/
theorem sha256Hex_abc :
    sha256Hex (strToBytes "abc") =
      "ba7816bf8f01cfea414140de5dae2223b00361a396177a9cb410ff61f20015ad" := by
  decide

/-! ### Shared helper lemmas -/

theorem containsStr_appendR {s t : String} (u : String) (h : containsStr s t) :
    containsStr (s ++ u) t := by
  obtain ⟨a, b, rfl⟩ := h
  exact ⟨a, b ++ u, by simp [String.append_assoc]⟩

theorem pyLower_append (s t : String) : pyLower (s ++ t) = pyLower s ++ pyLower t := by
  have h : List.map Char.toLower (s ++ t).data =
      List.map Char.toLower s.data ++ List.map Char.toLower t.data := by
    rw [String.data_append, List.map_append]
  show String.mk (List.map Char.toLower (s ++ t).data) = pyLower s ++ pyLower t
  rw [h]
  rfl

theorem strMk_inj {x y : List Char} (h : String.mk x = String.mk y) : x = y := by
  injection h

/-! ### C2 -/

/-- C2: `compute_case_key` is a deterministic pure function of its four
inputs: each missing/empty field is replaced by its sentinel
(`unknown_diagnosis`, `unknown_procedure`, `no_milestone`, `general` —
the optional two after stripping), the fields are joined with `":"`, the
whole string is lower-cased and the SHA-256 hex digest of its UTF-8 bytes is
returned; identical inputs always give identical digests, and passing an
empty field is the same as passing its sentinel. -/
theorem computeCaseKey_algorithm :
    (∀ d p rm ds,
      compute_case_key d p rm ds =
        sha256Hex (strToBytes (pyLower
          ((if d = "" then "unknown_diagnosis" else d) ++ ":" ++
           (if p = "" then "unknown_procedure" else p) ++ ":" ++
           (if pyStrip ((rm : Option String).getD "") = "" then "no_milestone"
            else pyStrip (rm.getD "")) ++ ":" ++
           (if pyStrip ((ds : Option String).getD "") = "" then "general"
            else pyStrip (ds.getD "")))))) ∧
    (∀ d p rm ds, compute_case_key d p rm ds = compute_case_key d p rm ds) ∧
    (∀ p rm ds, compute_case_key "" p rm ds = compute_case_key "unknown_diagnosis" p rm ds) ∧
    (∀ d rm ds, compute_case_key d "" rm ds = compute_case_key d "unknown_procedure" rm ds) ∧
    (∀ d p ds, compute_case_key d p none ds = compute_case_key d p (some "no_milestone") ds) ∧
    (∀ d p rm, compute_case_key d p rm none = compute_case_key d p rm (some "general")) :=
  ⟨fun d p rm ds => rfl, fun d p rm ds => rfl, fun p rm ds => rfl,
   fun d rm ds => rfl, fun d p ds => rfl, fun d p rm => rfl⟩

/-! ### C6 -/

/-- C6: when the cloud (Supabase) upload raises after the source bytes were
downloaded, `upload_from_url` does not propagate the exception: it returns
normally with the servable local URL `/storage/videos/<name>`, records the
bytes in the local videos directory, and logs the fallback. -/
theorem storage_cloud_failure_falls_back_local
    (storage_dir e : String) (video_data : List Nat) (case_key uuid_hex : String) :
    upload_from_url storage_dir true (.error e) (.ok video_data) case_key uuid_hex =
      .ok ⟨"/storage/videos/" ++ (case_key ++ "-" ++ uuid_hex ++ ".mp4"),
           [(storage_dir ++ "/videos/" ++ (case_key ++ "-" ++ uuid_hex ++ ".mp4"), video_data)],
           ["[ERROR] Supabase upload failed: " ++ e ++ ", falling back to local storage"],
           false⟩ := rfl

/-! ### C5 -/

/-- Any value delivered by `pyGet` is a stored value of the dict. -/
theorem pyGet_isStr (script_payload : List (String × PyVal))
    (h : AllStrPayload script_payload) (k : String) (v : PyVal)
    (hget : pyGet script_payload k = some v) : isStrVal v = true := by
  unfold pyGet at hget
  cases hfind : script_payload.find? (fun kv => kv.1 = k) with
  | none => rw [hfind] at hget; cases hget
  | some kv =>
      rw [hfind] at hget
      injection hget with hv
      rw [← hv]
      exact h kv (List.mem_of_find?_eq_some hfind)

/-- Reduction of `Except` bind on a success to the continuation. -/
theorem exbind_ok {E A B : Type} (x : A) (k : A → Except E B) :
    (Bind.bind (Except.ok x) k : Except E B) = k x := rfl

/-- Python `join` succeeds on all-string values. -/
theorem pyJoinVals_ok (sep : String) (vals : List PyVal)
    (hall : vals.all isStrVal = true) :
    pyJoinVals sep vals = .ok (String.intercalate sep (vals.map pyToStr)) := by
  unfold pyJoinVals
  rw [if_pos hall]

theorem isStrVal_str (s : String) : isStrVal (.str s) = true := rfl

/-- The f-string "Actions" entries are always strings. -/
theorem actions_all_str (script_payload : List (String × PyVal)) :
    (["intro", "overview", "treatment", "reminders"].filterMap
      (fun k => (pyGet script_payload k).map (fun v => PyVal.str ("- " ++ pyToStr v)))).all
        isStrVal = true := by
  rw [List.all_eq_true]
  intro v hv
  obtain ⟨k, _, hkv⟩ := List.mem_filterMap.mp hv
  obtain ⟨w, _, hw2⟩ := Option.map_eq_some'.mp hkv
  rw [← hw2]
  rfl

/-- On an all-string payload the prompt builder cannot raise: both joins
see only strings. -/
theorem buildVideoPrompt_ok_of_allStr (script_payload : List (String × PyVal))
    (h : AllStrPayload script_payload) :
    ∃ s, buildVideoPrompt script_payload = .ok s := by
  have hscene : ∀ v ∈ ["intro", "overview", "treatment"].filterMap (pyGet script_payload),
      isStrVal v = true := by
    intro v hv
    obtain ⟨k, _, hkv⟩ := List.mem_filterMap.mp hv
    exact pyGet_isStr script_payload h k v hkv
  have hact := actions_all_str script_payload
  unfold buildVideoPrompt
  by_cases hempty : (["intro", "overview", "treatment"].filterMap (pyGet script_payload)).isEmpty
  · rw [if_pos hempty]
    cases hcontent : pyGet script_payload "content" with
    | none =>
        exact ⟨_, pyJoinVals_ok "\n" _
          (by simp [List.all_append, List.all_cons, List.all_nil, isStrVal_str, hact])⟩
    | some c =>
        have hc : isStrVal c = true := pyGet_isStr script_payload h "content" c hcontent
        exact ⟨_, pyJoinVals_ok "\n" _
          (by simp [List.all_append, List.all_cons, List.all_nil, isStrVal_str, hact, hc])⟩
  · rw [if_neg hempty]
    rw [pyJoinVals_ok " " _ (List.all_eq_true.mpr hscene)]
    exact ⟨_, pyJoinVals_ok "\n" _
      (by simp [List.all_append, List.all_cons, List.all_nil, isStrVal_str, hact])⟩

/-- C5, amended: for every script payload on which the prompt builder
succeeds — in particular every payload whose JSON values are all strings —
`create_video` propagates no exception: a successful provider path returns
its result, and ANY provider-path error (submission rejection,
authentication failure, poll failure, poll timeout) is replaced by the mock
result whose status is "completed", whose `mock` flag is `True` and whose
`video_url` is the non-empty placeholder derived from the prompt's MD5
digest. (The unqualified "for every script payload" of the original claim is
refuted by `createVideo_propagates_prompt_typeerror`.) -/
theorem createVideo_mock_fallback :
    (∀ script_payload, AllStrPayload script_payload →
      ∃ s, buildVideoPrompt script_payload = .ok s) ∧
    (∀ script_payload metadata sora vp e,
      buildVideoPrompt script_payload = .ok vp →
      sora vp = .error e →
      create_video sora script_payload metadata =
        .ok { id := some ("mock_video_" ++ (md5Hex (strToBytes vp)).take 12),
              status := "completed",
              video_url := some (mockUrl vp),
              video_file_id := some ("file_" ++ (md5Hex (strToBytes vp)).take 12),
              prompt := some vp,
              mock := true } ∧
      mockUrl vp ≠ "") ∧
    (∀ script_payload metadata sora r vp,
      buildVideoPrompt script_payload = .ok vp →
      sora vp = .ok r →
      create_video sora script_payload metadata = .ok r) := by
  refine ⟨buildVideoPrompt_ok_of_allStr, ?_, ?_⟩
  · intro script_payload metadata sora vp e hvp hsora
    constructor
    · simp only [create_video, createMockVideo, hvp, exbind_ok, hsora]
      rfl
    · intro hcon
      have hlen := congrArg String.length hcon
      rw [mockUrl, String.length_append, String.length_append] at hlen
      have h1 : ("https://example.com/videos/mock_" : String).length = 32 := rfl
      have h2 : ("" : String).length = 0 := rfl
      omega
  · intro script_payload metadata sora r vp hvp hsora
    simp only [create_video, hvp, exbind_ok, hsora]
    rfl

/-- C5, counterexample: a script payload whose `intro` is a JSON object —
precisely the shape the storyboard instructs the model to emit — makes
`" ".join` in `_build_video_prompt` raise `TypeError` before the guarded
provider call, and `create_video` propagates that exception instead of
returning the mock result. -/
theorem createVideo_propagates_prompt_typeerror :
    create_video authFailSora
        [("intro", PyVal.obj [("narration", PyVal.str "hi")])] [] =
      .error .typeError := rfl

/-- C5 witness: the all-string payload `helloPayload` builds `helloPrompt`,
and under an authentication failure `create_video` answers with the mock
completed result and its non-empty MD5-derived URL. -/
theorem createVideo_mock_fallback_w :
    create_video authFailSora helloPayload [] =
      .ok { id := some ("mock_video_" ++ (md5Hex (strToBytes helloPrompt)).take 12),
            status := "completed",
            video_url := some (mockUrl helloPrompt),
            video_file_id := some ("file_" ++ (md5Hex (strToBytes helloPrompt)).take 12),
            prompt := some helloPrompt,
            mock := true } ∧
    mockUrl helloPrompt ≠ "" :=
  createVideo_mock_fallback.2.1 helloPayload [] authFailSora helloPrompt
    (.valueError "OpenAI API authentication failed: bad key. Please check your API key.")
    rfl rfl

/-! ### C7 -/

theorem append_ne_left {a1 a2 : String} (r : String) (h : a1 ≠ a2) :
    a1 ++ r ≠ a2 ++ r := by
  intro he
  apply h
  have hd := congrArg String.data he
  rw [String.data_append, String.data_append] at hd
  have hx := List.append_cancel_right hd
  cases a1
  cases a2
  exact congrArg String.mk hx

theorem append_ne_right {b1 b2 : String} (r : String) (h : b1 ≠ b2) :
    r ++ b1 ≠ r ++ b2 := by
  intro he
  apply h
  have hd := congrArg String.data he
  rw [String.data_append, String.data_append] at hd
  have hx := List.append_cancel_left hd
  cases b1
  cases b2
  exact congrArg String.mk hx

/-- C7, counterexample: the canonical string is lower-cased before hashing,
so two requests differing only in the case of one field (diagnosis "A"
versus "a", the other three fields held fixed) produce the SAME digest —
"the resulting digests differ" fails. -/
theorem caseKey_case_fold_collision :
    compute_case_key "A" "proc" none none = compute_case_key "a" "proc" none none ∧
    ("A" : String) ≠ "a" :=
  ⟨rfl, by decide⟩

/-- C7, amended: identical tuples always give identical keys; and a change
to exactly one field (the other three held fixed) changes the canonical
pre-hash summary string — hence the SHA-256 digest, barring a hash
collision — whenever the field's normalized lower-cased form changes
(sentinel substitution, stripping of the optional fields, and case folding
are the only identifications). -/
theorem caseKey_field_discrimination :
    (∀ d p rm ds, compute_case_key d p rm ds = compute_case_key d p rm ds) ∧
    (∀ p rm ds d1 d2,
      pyLower (pyOr d1 "unknown_diagnosis") ≠ pyLower (pyOr d2 "unknown_diagnosis") →
      caseSummary d1 p rm ds ≠ caseSummary d2 p rm ds) ∧
    (∀ d rm ds p1 p2,
      pyLower (pyOr p1 "unknown_procedure") ≠ pyLower (pyOr p2 "unknown_procedure") →
      caseSummary d p1 rm ds ≠ caseSummary d p2 rm ds) ∧
    (∀ d p ds rm1 rm2,
      pyLower (pyOr (pyStrip (rm1.getD "")) "no_milestone") ≠
        pyLower (pyOr (pyStrip (rm2.getD "")) "no_milestone") →
      caseSummary d p rm1 ds ≠ caseSummary d p rm2 ds) ∧
    (∀ d p rm ds1 ds2,
      pyLower (pyOr (pyStrip (ds1.getD "")) "general") ≠
        pyLower (pyOr (pyStrip (ds2.getD "")) "general") →
      caseSummary d p rm ds1 ≠ caseSummary d p rm ds2) := by
  refine ⟨fun d p rm ds => rfl, ?_, ?_, ?_, ?_⟩
  · intro p rm ds d1 d2 h
    unfold caseSummary
    simp only [pyLower_append, String.append_assoc]
    exact append_ne_left _ h
  · intro d rm ds p1 p2 h
    unfold caseSummary
    simp only [pyLower_append, String.append_assoc]
    exact append_ne_right _ (append_ne_right _ (append_ne_left _ h))
  · intro d p ds rm1 rm2 h
    unfold caseSummary
    simp only [pyLower_append, String.append_assoc]
    exact append_ne_right _ (append_ne_right _ (append_ne_right _
      (append_ne_right _ (append_ne_left _ h))))
  · intro d p rm ds1 ds2 h
    unfold caseSummary
    simp only [pyLower_append, String.append_assoc]
    exact append_ne_right _ (append_ne_right _ (append_ne_right _
      (append_ne_right _ (append_ne_right _ (append_ne_right _ h)))))

/-- C7 witness: concrete one-field changes (each other field held fixed)
with distinct normalized forms give distinct canonical summaries. -/
theorem caseKey_field_discrimination_w :
    caseSummary "flu" "p" none none ≠ caseSummary "cold" "p" none none ∧
    caseSummary "d" "p1" none none ≠ caseSummary "d" "p2" none none ∧
    caseSummary "d" "p" (some "day 3") none ≠ caseSummary "d" "p" none none ∧
    caseSummary "d" "p" none (some "cardiology") ≠ caseSummary "d" "p" none none :=
  ⟨caseKey_field_discrimination.2.1 "p" none none "flu" "cold" (by decide),
   caseKey_field_discrimination.2.2.1 "d" none none "p1" "p2" (by decide),
   caseKey_field_discrimination.2.2.2.1 "d" "p" none (some "day 3") none (by decide),
   caseKey_field_discrimination.2.2.2.2 "d" "p" none (some "cardiology") none (by decide)⟩

/-! ### C8 -/

/-- C8, counterexample: an empty (or whitespace-only / absent) message
content does NOT raise — `request_script` returns `{"content": ""}` — so
"raises an error exactly when the provider response is empty or absent" is
false on the empty response. (`loadsFail` is `json.loads`' actual behaviour
on the empty string: a `JSONDecodeError`.) -/
theorem requestScript_empty_not_error :
    request_script loadsFail (.ok [some ""]) = .ok [("content", PyVal.str "")] := rfl

/-- C8, amended: `request_script` propagates a provider error, raises
(`IndexError`) exactly when the response carries no choices, returns the
parsed mapping (with the raw text defaulted under `"content"`) when the text
parses as a JSON object, and wraps any other text — malformed OR empty — in
a single `content` field without raising. -/
theorem requestScript_parse_behaviour (loads : String → Option PyVal) :
    (∀ m, request_script loads (.raised m) = .error (.providerError m)) ∧
    (request_script loads (.ok []) = .error .indexError) ∧
    (∀ c rest fields, loads (pyStrip (c.getD "")) = some (.obj fields) →
      request_script loads (.ok (c :: rest)) =
        .ok (pySetdefault fields "content" (.str (pyStrip (c.getD ""))))) ∧
    (∀ c rest, (∀ fields, loads (pyStrip (c.getD "")) ≠ some (.obj fields)) →
      request_script loads (.ok (c :: rest)) =
        .ok [("content", PyVal.str (pyStrip (c.getD "")))]) := by
  refine ⟨fun m => rfl, rfl, ?_, ?_⟩
  · intro c rest fields h
    simp only [request_script, h]
  · intro c rest h
    simp only [request_script]

/-! ### C9 -/

theorem plan_keys_distinct :
    PLAN_DEFINITIONS.Pairwise (fun a b => a.1 ≠ b.1) := by decide

theorem plan_entries_sorted :
    PLAN_DEFINITIONS.Pairwise (fun a b => a.2.day < b.2.day) := by decide

theorem plan_day_eq_key : ∀ kv ∈ PLAN_DEFINITIONS, kv.2.day = kv.1 := by decide

theorem sortInts_plan_keys :
    sortInts (PLAN_DEFINITIONS.map Prod.fst) = PLAN_DEFINITIONS.map Prod.fst := by decide

/-- Looking up each filtered key of a duplicate-free association list gives
exactly the filtered entries. -/
theorem filterMap_assoc_lookup (P : Int → Bool) :
    ∀ kvs : List (Int × RecoveryDayPlan),
      kvs.Pairwise (fun a b => a.1 ≠ b.1) →
      ((kvs.map Prod.fst).filter P).filterMap
          (fun d => ((kvs.find? (fun kv => kv.1 = d)).map (·.2)))
        = (kvs.filter (fun kv => P kv.1)).map Prod.snd := by
  intro kvs
  induction kvs with
  | nil => intro _; rfl
  | cons hd tl ih =>
    intro hnd
    obtain ⟨hhd, htl⟩ := List.pairwise_cons.mp hnd
    have hcongr : ∀ d ∈ (tl.map Prod.fst).filter P,
        (((hd :: tl).find? (fun kv => kv.1 = d)).map (·.2)) =
          ((tl.find? (fun kv => kv.1 = d)).map (·.2)) := by
      intro d hdmem
      obtain ⟨kv, hkvmem, hkveq⟩ := List.mem_map.mp (List.mem_of_mem_filter hdmem)
      have hne : ¬ (hd.1 = d) := by
        rw [← hkveq]
        exact hhd kv hkvmem
      rw [List.find?_cons_of_neg]
      simpa using hne
    have hfhd : ((hd :: tl).find? (fun kv => kv.1 = hd.1)) = some hd := by
      rw [List.find?_cons_of_pos]
      simp
    by_cases hP : P hd.1
    · have h1 : ((hd :: tl).map Prod.fst).filter P = hd.1 :: (tl.map Prod.fst).filter P := by
        simp [List.filter_cons, hP]
      have h2 : (hd :: tl).filter (fun kv => P kv.1) = hd :: tl.filter (fun kv => P kv.1) := by
        simp [List.filter_cons, hP]
      rw [h1, h2, List.filterMap_cons, List.map_cons, hfhd]
      simp only [Option.map_some']
      rw [List.filterMap_congr hcongr, ih htl]
    · have h1 : ((hd :: tl).map Prod.fst).filter P = (tl.map Prod.fst).filter P := by
        simp [List.filter_cons, hP]
      have h2 : (hd :: tl).filter (fun kv => P kv.1) = tl.filter (fun kv => P kv.1) := by
        simp [List.filter_cons, hP]
      rw [h1, h2, List.filterMap_congr hcongr, ih htl]

/-- C9: for every integer day `d`, `get_prior_plans d` returns exactly the
table entries whose day is strictly below `d`, in ascending day order
(`d` itself excluded); in particular `get_prior_plans 10` is the entries for
days 1, 3, 5, 7 in that order. The function is total (defined for every
`d : Int`) and pure. -/
theorem priorPlans_exact :
    (∀ day : Int, get_prior_plans day =
      (PLAN_DEFINITIONS.filter (fun kv => kv.1 < day)).map Prod.snd) ∧
    (∀ day : Int, (get_prior_plans day).Pairwise (fun a b => a.day < b.day)) ∧
    (∀ day : Int, ∀ p ∈ get_prior_plans day, p.day < day) ∧
    ((get_prior_plans 10).map (·.day) = [1, 3, 5, 7]) ∧
    (get_prior_plans 10 = (PLAN_DEFINITIONS.take 4).map Prod.snd) := by
  have hlam : planLookup =
      (fun d => ((PLAN_DEFINITIONS.find? (fun kv => kv.1 = d)).map (·.2))) := rfl
  have hmain : ∀ day : Int, get_prior_plans day =
      (PLAN_DEFINITIONS.filter (fun kv => kv.1 < day)).map Prod.snd := by
    intro day
    unfold get_prior_plans
    rw [sortInts_plan_keys, hlam]
    exact filterMap_assoc_lookup _ PLAN_DEFINITIONS plan_keys_distinct
  refine ⟨hmain, ?_, ?_, by decide, by decide⟩
  · intro day
    rw [hmain day]
    exact List.pairwise_map.mpr (plan_entries_sorted.filter _)
  · intro day p hp
    rw [hmain day] at hp
    obtain ⟨kv, hkvf, rfl⟩ := List.mem_map.mp hp
    obtain ⟨hkvmem, hcond⟩ := List.mem_filter.mp hkvf
    rw [plan_day_eq_key kv hkvmem]
    exact of_decide_eq_true hcond

/-- C9 witness: the strictly-below-`d` conjunct of `priorPlans_exact` at the
concrete day-1 entry and day 10. -/
theorem priorPlans_exact_w : dayOnePlan.day < 10 :=
  priorPlans_exact.2.2.1 10 dayOnePlan (by decide)

/-! ### C3 -/

/-- If every attempt in the window yields a non-terminal response, the loop
exhausts its fuel and raises the timeout naming the job id. -/
theorem pollFuel_timeout (job_id : String) (trace : Nat → PollResp)
    (download : String → Except String String) :
    ∀ fuel attempt : Nat,
      (∀ i, attempt ≤ i → i < attempt + fuel → NonTerminalResp (trace i)) →
      pollFuel job_id trace download attempt fuel =
        .error (.timeoutError ("Video generation timed out for job " ++ job_id)) := by
  intro fuel
  induction fuel with
  | zero => intro attempt _; rfl
  | succ f ih =>
    intro attempt h
    have hat : NonTerminalResp (trace attempt) := h attempt le_rfl (by omega)
    unfold pollFuel
    cases htr : trace attempt with
    | requestError =>
        rw [htr] at hat
        exact absurd hat id
    | response rid st em =>
        rw [htr] at hat
        obtain ⟨h1, h2⟩ := hat
        simp only [if_neg h1, if_neg h2]
        exact ih (attempt + 1) (fun i hi1 hi2 => h i (by omega) (by omega))

/-- C3, amended: a provider that never reports a terminal status within the
polling ceiling makes `_poll_for_video` raise the timeout error whose
message names the job id, an error distinct from the poll-failure
`RuntimeError` and from a generic re-raised exception. (The original claim's
final clause — that the caller of `create_video` observes this timeout — is
refuted by `createVideo_swallows_poll_timeout`: `create_video` catches it
and returns a mock result.) -/
theorem pollTimeout_names_job (job_id : String) (trace : Nat → PollResp)
    (download : String → Except String String) (max_attempts : Nat)
    (h : ∀ i, i < max_attempts → NonTerminalResp (trace i)) :
    poll_for_video job_id trace download max_attempts =
      .error (.timeoutError ("Video generation timed out for job " ++ job_id)) ∧
    containsStr ("Video generation timed out for job " ++ job_id) job_id ∧
    (∀ m, PyErr.timeoutError ("Video generation timed out for job " ++ job_id) ≠
      PyErr.runtimeError m) ∧
    PyErr.timeoutError ("Video generation timed out for job " ++ job_id) ≠
      PyErr.otherError := by
  refine ⟨?_, ?_, ?_, ?_⟩
  · exact pollFuel_timeout job_id trace download max_attempts 0
      (fun i _ hi2 => h i (by omega))
  · exact ⟨"Video generation timed out for job ", "", (String.append_empty _).symm⟩
  · intro m h'
    cases h'
  · intro h'
    cases h'

/-- C3 witness: a job polled five times with only `processing` responses
times out with the message naming the job id. -/
theorem pollTimeout_names_job_w :
    poll_for_video "job-1" processingTrace okDownload 5 =
      .error (.timeoutError "Video generation timed out for job job-1") ∧
    containsStr "Video generation timed out for job job-1" "job-1" := by
  have hnt : ∀ i, i < 5 → NonTerminalResp (processingTrace i) := by
    intro i _
    simp [processingTrace, NonTerminalResp]
  have h := pollTimeout_names_job "job-1" processingTrace okDownload 5 hnt
  exact ⟨h.1, h.2.1⟩

/-- C3, counterexample to the claim's last clause: the poll path genuinely
times out, but `create_video` catches every exception and its caller
observes a mock "completed" result rather than the timeout. -/
theorem createVideo_swallows_poll_timeout :
    hangingSora helloPrompt =
      .error (.timeoutError "Video generation timed out for job job-1") ∧
    (create_video hangingSora helloPayload []).toOption.map
        (fun r => (r.status, r.mock)) = some ("completed", true) :=
  ⟨rfl, by decide⟩

/-! ### C4 -/

/-- Reaching a `failed` response after non-terminal ones raises the
RuntimeError carrying the provider detail. -/
theorem pollFuel_failed (job_id : String) (trace : Nat → PollResp)
    (download : String → Except String String) (k : Nat)
    (rid em : Option String) :
    ∀ fuel attempt : Nat, attempt ≤ k → k < attempt + fuel →
      (∀ i, attempt ≤ i → i < k → NonTerminalResp (trace i)) →
      trace k = .response rid (some "failed") em →
      pollFuel job_id trace download attempt fuel =
        .error (.runtimeError ("Video generation failed: " ++ em.getD "Unknown error")) := by
  intro fuel
  induction fuel with
  | zero => intro attempt h1 h2 _ _; omega
  | succ f ih =>
    intro attempt hak hk h hfail
    by_cases heq : attempt = k
    · subst heq
      unfold pollFuel
      rw [hfail]
      simp
    · have hlt : attempt < k := by omega
      have hat : NonTerminalResp (trace attempt) := h attempt le_rfl hlt
      unfold pollFuel
      cases htr : trace attempt with
      | requestError =>
          rw [htr] at hat
          exact absurd hat id
      | response rid' st' em' =>
          rw [htr] at hat
          obtain ⟨h1, h2⟩ := hat
          simp only [if_neg h1, if_neg h2]
          exact ih (attempt + 1) (by omega) (by omega)
            (fun i hi1 hi2 => h i (by omega) hi2) hfail

/-- C4: a poll response with `status = "failed"` makes the client raise the
RuntimeError carrying the provider's error detail (the text falls back to
"Unknown error" when the provider gives none), an error distinguishable from
the timeout; and a non-terminal response (queued, processing, unrecognized
or absent status) never raises — the loop continues with the next
attempt. -/
theorem pollFailed_carries_detail (job_id : String) (trace : Nat → PollResp)
    (download : String → Except String String) (max_attempts k : Nat)
    (rid em : Option String) (hk : k < max_attempts)
    (hbefore : ∀ i, i < k → NonTerminalResp (trace i))
    (hfail : trace k = .response rid (some "failed") em) :
    poll_for_video job_id trace download max_attempts =
      .error (.runtimeError ("Video generation failed: " ++ em.getD "Unknown error")) ∧
    (em = none → poll_for_video job_id trace download max_attempts =
      .error (.runtimeError "Video generation failed: Unknown error")) ∧
    (∀ m m', PyErr.runtimeError m ≠ PyErr.timeoutError m') ∧
    (∀ attempt fuel rid2 st2 em2, st2 ≠ some "completed" → st2 ≠ some "failed" →
      trace attempt = .response rid2 st2 em2 →
      pollFuel job_id trace download attempt (fuel + 1) =
        pollFuel job_id trace download (attempt + 1) fuel) := by
  have hmain : poll_for_video job_id trace download max_attempts =
      .error (.runtimeError ("Video generation failed: " ++ em.getD "Unknown error")) :=
    pollFuel_failed job_id trace download k rid em max_attempts 0
      (by omega) (by omega) (fun i _ hi2 => hbefore i hi2) hfail
  refine ⟨hmain, ?_, ?_, ?_⟩
  · intro he
    subst he
    exact hmain
  · intro m m' h'
    cases h'
  · intro attempt fuel rid2 st2 em2 h1 h2 htr
    unfold pollFuel
    rw [htr]
    simp only [if_neg h1, if_neg h2]
    rw [pollFuel.eq_def]

/-- C4 witness: after one `processing` response, a `failed` response with
detail "boom" raises the RuntimeError carrying that detail. -/
theorem pollFailed_carries_detail_w :
    poll_for_video "job-2" failTrace okDownload 5 =
      .error (.runtimeError "Video generation failed: boom") := by
  have hnt : ∀ i, i < 1 → NonTerminalResp (failTrace i) := by
    intro i hi
    have h0 : i = 0 := by omega
    subst h0
    simp [failTrace, NonTerminalResp]
  exact (pollFailed_carries_detail "job-2" failTrace okDownload 5 1 none (some "boom")
    (by omega) hnt rfl).1

/-! ### C10 -/

/-- Decomposition: `build_prompt` is the unconditional core followed by the optional
recovery blocks. -/
theorem build_prompt_extends_core (ctx : PromptContext) :
    ∃ tail, build_prompt ctx = promptCore ctx ++ tail := by
  unfold build_prompt
  cases hrp : ctx.recovery_plan with
  | none =>
      cases hpc : ctx.prior_recovery_context with
      | nil => exact ⟨"", (String.append_empty _).symm⟩
      | cons a l => exact ⟨priorBlock (a :: l), rfl⟩
  | some rp =>
      cases hpc : ctx.prior_recovery_context with
      | nil => exact ⟨recoveryBlock rp ctx.recovery_milestone, rfl⟩
      | cons a l =>
          refine ⟨recoveryBlock rp ctx.recovery_milestone ++ priorBlock (a :: l), ?_⟩
          show promptCore ctx ++ recoveryBlock rp ctx.recovery_milestone ++
              priorBlock (a :: l) =
            promptCore ctx ++ (recoveryBlock rp ctx.recovery_milestone ++ priorBlock (a :: l))
          rw [String.append_assoc]

/-- C10: whenever the context has an empty diagnoses list, an empty
medications list and no notes, the built prompt contains the fixed fallback
phrases "Not specified", "No active medications listed" and
"No supplemental notes provided." rather than empty renderings. -/
theorem buildPrompt_empty_fallbacks (ctx : PromptContext)
    (hdiag : ctx.diagnoses = []) (hmed : ctx.medications = [])
    (hnotes : ctx.notes = none) :
    containsStr (build_prompt ctx) "Not specified" ∧
    containsStr (build_prompt ctx) "No active medications listed" ∧
    containsStr (build_prompt ctx) "No supplemental notes provided." := by
  obtain ⟨tail, htail⟩ := build_prompt_extends_core ctx
  rw [htail]
  have hd : diagnosesText ctx = "Not specified" := by
    rw [diagnosesText, hdiag]
    rfl
  have hm : medicationsText ctx = "No active medications listed" := by
    rw [medicationsText, hmed]
    rfl
  have hn : notesText ctx = "No supplemental notes provided." := by
    rw [notesText, hnotes]
    rfl
  refine ⟨containsStr_appendR tail ?_, containsStr_appendR tail ?_,
    containsStr_appendR tail ?_⟩
  · refine ⟨storyboard ++ "\n" ++ "Patient: " ++ pyOr (patientName ctx) "Patient" ++ "\n" ++
      "Doctor: " ++ pyOr (doctorName ctx) "Doctor" ++ "\n" ++ "Diagnoses: ",
      "\n" ++ "Medications: " ++ medicationsText ctx ++ "\n" ++
      "Additional Notes:\n" ++ notesText ctx ++ "\n", ?_⟩
    rw [promptCore, hd]
    all_goals simp only [String.append_assoc]
  · refine ⟨storyboard ++ "\n" ++ "Patient: " ++ pyOr (patientName ctx) "Patient" ++ "\n" ++
      "Doctor: " ++ pyOr (doctorName ctx) "Doctor" ++ "\n" ++ "Diagnoses: " ++
      diagnosesText ctx ++ "\n" ++ "Medications: ",
      "\n" ++ "Additional Notes:\n" ++ notesText ctx ++ "\n", ?_⟩
    rw [promptCore, hm]
    all_goals simp only [String.append_assoc]
  · refine ⟨storyboard ++ "\n" ++ "Patient: " ++ pyOr (patientName ctx) "Patient" ++ "\n" ++
      "Doctor: " ++ pyOr (doctorName ctx) "Doctor" ++ "\n" ++ "Diagnoses: " ++
      diagnosesText ctx ++ "\n" ++ "Medications: " ++ medicationsText ctx ++ "\n" ++
      "Additional Notes:\n", "\n", ?_⟩
    rw [promptCore, hn]
    all_goals simp only [String.append_assoc]

/-- C10 witness: the fallback phrases at a concrete context with empty
diagnoses/medications and absent notes. -/
theorem buildPrompt_empty_fallbacks_w :
    containsStr (build_prompt emptyCtx) "Not specified" ∧
    containsStr (build_prompt emptyCtx) "No active medications listed" ∧
    containsStr (build_prompt emptyCtx) "No supplemental notes provided." :=
  buildPrompt_empty_fallbacks emptyCtx rfl rfl rfl

/-! ### C1 -/

/-- C1, amended: provided case reuse is enabled in configuration
(`reuse_case_enabled`, the default), a request with
`force_regenerate = False` whose computed CaseKey is found in the store is
answered immediately from the stored record — `reused = True`, the stored
file URL and metadata id — with no video-provider call, no storage write and
no new metadata row; and on EVERY path the reuse lookup is performed iff
`force_regenerate` is `False`. (Without the enabled flag the claim fails:
see the counterexample.) -/
theorem generate_reuse_hit (req : GenRequest) (doctor_specialty : Option String)
    (store : List MetaRecord) (videoOracle : Except String VideoResult)
    (uploadOracle : String → Except String String) (demoExists : Bool)
    (insert_id : Option Int) (now : Nat) (rec : MetaRecord)
    (hforce : req.force_regenerate = false)
    (hfind : find_reusable_video true store
        (compute_case_key req.diagnosis_code req.procedure_code
          req.recovery_milestone doctor_specialty) = some rec) :
    generate_video req doctor_specialty true store videoOracle uploadOracle
        demoExists insert_id now =
      (⟨true, 0, 0, []⟩,
       .ok ⟨rec.file_url,
            compute_case_key req.diagnosis_code req.procedure_code
              req.recovery_milestone doctor_specialty,
            true, rec.id⟩) ∧
    (∀ req2 ds2 re2 st2 vo2 uo2 de2 ii2 n2,
      (generate_video req2 ds2 re2 st2 vo2 uo2 de2 ii2 n2).1.lookupPerformed =
        !req2.force_regenerate) := by
  constructor
  · simp [generate_video, hforce, hfind]
  · intro req2 ds2 re2 st2 vo2 uo2 de2 ii2 n2
    unfold generate_video
    split
    · rfl
    · split
      · rfl
      · split
        · rfl
        · split
          · rfl
          · rfl

/-- C1, counterexample: with the `reuse_case_enabled` feature flag off
(`REUSE_CASE_ENABLED=false`), a request with `force_regenerate = False`
whose computed CaseKey has an existing stored metadata record is NOT
answered from the store: the response is a fresh generation with
`reused = False`, and a provider call, a storage write and a new metadata
row all occur. -/
theorem generate_reuse_disabled_cex :
    recC1.file_type = "video" ∧
    recC1.case_key = some ckC1 ∧
    reqC1.force_regenerate = false ∧
    ckC1 = compute_case_key reqC1.diagnosis_code reqC1.procedure_code
      reqC1.recovery_milestone none ∧
    generate_video reqC1 none false [recC1] videoOracleC1 uploadOracleC1
        true (some 9) 10 =
      (⟨true, 1, 1, [⟨some 9, "doc@example.com", "pat@example.com", "video",
          "/storage/videos/new.mp4", some (ckC1 ++ ".mp4"), some ckC1, 10⟩]⟩,
       .ok ⟨"/storage/videos/new.mp4", ckC1, false, some 9⟩) :=
  ⟨rfl, rfl, rfl, rfl, rfl⟩

/-- C1 witness: with reuse enabled, the identical request is answered from
the store — `reused = True`, the stored URL, zero provider calls, zero
storage writes, no new row. -/
theorem generate_reuse_hit_w :
    generate_video reqC1 none true [recC1] videoOracleC1 uploadOracleC1
        true (some 9) 10 =
      (⟨true, 0, 0, []⟩,
       .ok ⟨"/storage/videos/old.mp4",
            compute_case_key reqC1.diagnosis_code reqC1.procedure_code
              reqC1.recovery_milestone none,
            true, some 7⟩) := by
  have hfind : find_reusable_video true [recC1]
      (compute_case_key reqC1.diagnosis_code reqC1.procedure_code
        reqC1.recovery_milestone none) = some recC1 := by rfl
  exact (generate_reuse_hit reqC1 none [recC1] videoOracleC1 uploadOracleC1
    true (some 9) 10 recC1 rfl hfind).1

/-- C8 witness: the parsed-object and the malformed-text branches of
`requestScript_parse_behaviour` at concrete inputs. -/
theorem requestScript_parse_behaviour_w :
    request_script loadsObj (.ok [some "k"]) =
      .ok [("intro", PyVal.str "x"), ("content", PyVal.str "k")] ∧
    request_script loadsFail (.ok [some "raw text"]) =
      .ok [("content", PyVal.str "raw text")] :=
  ⟨(requestScript_parse_behaviour loadsObj).2.2.1 (some "k") [] [("intro", PyVal.str "x")] rfl,
   (requestScript_parse_behaviour loadsFail).2.2.2 (some "raw text") []
     (fun _ h => Option.noConfusion h)⟩

end AMMA
